import Mathlib

/-!
Shallow embedding of the MitIT-Markdown-Editor document/persistence layer.

The repository contains two parallel persistence stacks:
* `documentStore.ts` backed by `mMarkdownDB` over the `TMDDocument` record
  (Adasoft-style fields `FNMdcId`, `FTMdcContent`, ...), and
* `editorStore.ts` backed by `DatabaseService` over the `MarkdownDocument`
  record (fields `id`, `content`, `createdAt`, `updatedAt`, plus the
  `F*Mdc*` fields carried along).

JavaScript strings are modelled as Lean `String`; the JS string operations
used by the code (`toLowerCase`, `includes`, `trim`, `split('\n')`,
`join('\n')`, `substring`, `.length`) are given explicit structural
definitions below so that every definition evaluates inside the kernel.
`new Date()` timestamps are modelled as explicit `Nat` parameters; Dexie's
`orderBy(key).reverse().toArray()` is modelled as a stable insertion sort
by the key, descending.
-/

namespace MitIT

/-! ### JavaScript string primitives -/

/-- Model of `String.prototype.length` (number of characters). -/
def jsLength (s : String) : Nat := s.toList.length

/-- Model of `String.prototype.toLowerCase` (ASCII letters). -/
def jsToLower (s : String) : String := ⟨s.toList.map Char.toLower⟩

/-- Prefix test: `charsStartWith l n` is true when `n` is a prefix of `l`. -/
def charsStartWith : List Char → List Char → Bool
  | _, [] => true
  | [], _ :: _ => false
  | c :: cs, n :: ns => c == n && charsStartWith cs ns

/-- Substring test: `charsContain hay needle` is true when `needle` occurs contiguously in `hay`. -/
def charsContain : List Char → List Char → Bool
  | [], needle => needle.isEmpty
  | c :: t, needle => charsStartWith (c :: t) needle || charsContain t needle

/-- Model of `hay.includes(needle)` on JS strings. -/
def jsIncludes (hay needle : String) : Bool := charsContain hay.toList needle.toList

/-- Whitespace characters stripped by `String.prototype.trim` (ASCII subset). -/
def jsWhitespace (c : Char) : Bool := c == ' ' || c == '\t' || c == '\n' || c == '\r'

/-- Model of `String.prototype.trim`. -/
def jsTrim (s : String) : String :=
  ⟨((s.toList.dropWhile jsWhitespace).reverse.dropWhile jsWhitespace).reverse⟩

/-- Helper for `jsSplitLines`; `acc` holds the current line reversed. -/
def jsSplitLinesAux (acc : List Char) : List Char → List String
  | [] => [⟨acc.reverse⟩]
  | c :: rest =>
    if c == '\n' then ⟨acc.reverse⟩ :: jsSplitLinesAux [] rest
    else jsSplitLinesAux (c :: acc) rest

/-- Model of `s.split('\n')` (JS: `''.split('\n') = ['']`, trailing newline
yields a trailing empty line). -/
def jsSplitLines (s : String) : List String := jsSplitLinesAux [] s.toList

/-- Model of `array.join(sep)` for an array of strings. -/
def jsJoin (sep : String) : List String → String
  | [] => ""
  | [x] => x
  | x :: y :: xs => x ++ sep ++ jsJoin sep (y :: xs)

/-- Model of `s.substring(0, n)`. -/
def jsSubstringTake (s : String) (n : Nat) : String := ⟨s.toList.take n⟩

/-! ### Descending sort by a numeric key

Dexie's `orderBy(key).reverse().toArray()` and JS `Array.prototype.sort`
with comparator `(a, b) => key(b) - key(a)` both produce a stable
arrangement that is descending in `key`; both are modelled by a stable
insertion sort with respect to the relation `keyGE key`. -/

/-- Relation `keyGE key a b`: holds when the key of `a` is at least the key of `b`. -/
def keyGE (key : α → Nat) (a b : α) : Prop := key b ≤ key a

instance (key : α → Nat) : DecidableRel (keyGE key) := fun _ _ => Nat.decLe _ _

instance (key : α → Nat) : IsTotal α (keyGE key) := ⟨fun a b => Nat.le_total (key b) (key a)⟩

instance (key : α → Nat) : IsTrans α (keyGE key) := ⟨fun _ _ _ hab hbc => Nat.le_trans hbc hab⟩

/-- Stable sort, descending in `key`. -/
def sortByKeyDesc (key : α → Nat) (l : List α) : List α := List.insertionSort (keyGE key) l

/-! ### The `TMDDocument` record (src/database/db.ts, src/types)

`FNMdcId` is the Dexie auto-increment primary key (modelled as `Nat`, taken
as a parameter where the code lets Dexie assign it). `Date` fields are
modelled as `Nat` timestamps. The optional `FTMdcTags?` array is modelled as
a plain list (`undefined` behaves as the empty list in every use site). -/

structure TMDDocument where
  FNMdcId : Nat
  FTMdcTitle : String
  FTMdcContent : String
  FDMdcCreated : Nat
  FDMdcModified : Nat
  FTMdcTags : List String
  FNMdcSize : Nat
  FBMdcFavorite : Bool
deriving DecidableEq

/-- Model of `mMarkdownDB.FSaMDCGetAllDocuments`:
`db.tMDDocument.orderBy('FDMdcModified').reverse().toArray()`. -/
def FSaMDCGetAllDocuments (db : List TMDDocument) : List TMDDocument :=
  sortByKeyDesc TMDDocument.FDMdcModified db

/-- A `Partial<TMDDocument>` argument as used by `updateDocument` callers:
`none` models a field absent from the partial update object. -/
structure TMDUpdates where
  FTMdcTitle : Option String := none
  FTMdcContent : Option String := none
  FNMdcSize : Option Nat := none
  FTMdcTags : Option (List String) := none
  FBMdcFavorite : Option Bool := none
deriving DecidableEq

/-- Spreading a partial update over a document (`{ ...doc, ...poUpdates }`). -/
def applyTMDUpdates (d : TMDDocument) (u : TMDUpdates) : TMDDocument :=
  { d with
    FTMdcTitle := u.FTMdcTitle.getD d.FTMdcTitle
    FTMdcContent := u.FTMdcContent.getD d.FTMdcContent
    FNMdcSize := u.FNMdcSize.getD d.FNMdcSize
    FTMdcTags := u.FTMdcTags.getD d.FTMdcTags
    FBMdcFavorite := u.FBMdcFavorite.getD d.FBMdcFavorite }

/-- Record `SearchResult` (src/types). -/
structure SearchResult where
  documentId : Nat
  title : String
  content : String
  matchCount : Nat
  highlights : List String
deriving DecidableEq

/-- Model of `sMarkdownService.FSaMDKSearchInContent` (src/services/markdownService.ts):
for each line containing the query (case-insensitively), pushes the line
joined with its neighbouring lines as context. -/
def FSaMDKSearchInContent (ptContent ptQuery : String) : List String :=
  if jsTrim ptQuery = "" then []
  else
    let aLines := jsSplitLines ptContent
    let tLowerQuery := jsToLower ptQuery
    (aLines.enum.filter (fun q => jsIncludes (jsToLower q.2) tLowerQuery)).map
      (fun q =>
        let nStart := q.1 - 1
        let nEnd := min (aLines.length - 1) (q.1 + 1)
        jsJoin "\n" ((aLines.drop nStart).take (nEnd + 1 - nStart)))

/-- The in-memory state of `useDocumentStore` (src/stores/documentStore.ts)
together with the backing Dexie table `tMDDocument` (field `db`). -/
structure DocumentStoreState where
  db : List TMDDocument
  documents : List TMDDocument
  currentDocument : Option TMDDocument
  isLoading : Bool
  searchQuery : String
  searchResults : List SearchResult
deriving DecidableEq

/-- Model of `documentStore.createDocument`: builds the new record with
`FDMdcCreated = FDMdcModified = dNow` and `FNMdcSize = ptContent.length`,
adds it to the table (Dexie assigns `newId`), re-reads it, prepends it to
the in-memory list and makes it current. -/
def dsCreateDocument (s : DocumentStoreState) (ptTitle ptContent : String)
    (newId now : Nat) : DocumentStoreState :=
  let oNewDocument : TMDDocument :=
    { FNMdcId := newId
      FTMdcTitle := ptTitle
      FTMdcContent := ptContent
      FDMdcCreated := now
      FDMdcModified := now
      FTMdcTags := []
      FNMdcSize := jsLength ptContent
      FBMdcFavorite := false }
  { s with
    db := s.db ++ [oNewDocument]
    documents := oNewDocument :: s.documents
    currentDocument := some oNewDocument }

/-- Model of `documentStore.updateDocument`: first mutates the partial-update object,
setting `FNMdcSize` to the new content's length whenever `FTMdcContent` is
among the updated fields; then`mMarkdownDB.FSxMDCUpdateDocument` spreads the
updates over the stored record with `FDMdcModified := new Date()`, and the
in-memory list and current document are patched the same way. -/
def dsUpdateDocument (s : DocumentStoreState) (pnId : Nat) (u : TMDUpdates)
    (now : Nat) : DocumentStoreState :=
  let u' := match u.FTMdcContent with
    | some c => { u with FNMdcSize := some (jsLength c) }
    | none => u
  let patch := fun (d : TMDDocument) =>
    if d.FNMdcId = pnId then { applyTMDUpdates d u' with FDMdcModified := now } else d
  { s with
    db := s.db.map patch
    documents := s.documents.map patch
    currentDocument := s.currentDocument.map patch }

/-- Model of `documentStore.deleteDocument`: `mMarkdownDB.FSxMDCDeleteDocument` (a
Dexie `delete`, which is a no-op for an absent key), then the in-memory list
is filtered and the current document cleared when it was the deleted one. -/
def dsDeleteDocument (s : DocumentStoreState) (pnId : Nat) : DocumentStoreState :=
  { s with
    db := s.db.filter (fun d => d.FNMdcId ≠ pnId)
    documents := s.documents.filter (fun d => d.FNMdcId ≠ pnId)
    currentDocument :=
      if s.currentDocument.map TMDDocument.FNMdcId = some pnId then none
      else s.currentDocument }

/-- The search result built for one matching document inside
`documentStore.searchDocuments`. -/
def mkSearchResult (doc : TMDDocument) (ptQuery : String) : SearchResult :=
  let aHighlights := FSaMDKSearchInContent doc.FTMdcContent ptQuery
  { documentId := doc.FNMdcId
    title := doc.FTMdcTitle
    content := jsSubstringTake doc.FTMdcContent 200 ++ "..."
    matchCount := aHighlights.length
    highlights := aHighlights.take 3 }

/-- Model of `documentStore.searchDocuments`: records the query; a query whose trim
is empty clears the results; otherwise every document whose title, content
or some tag contains the lower-cased query is turned into a `SearchResult`,
and the results are sorted by `matchCount` descending
(`aResults.sort((a, b) => b.matchCount - a.matchCount)`). -/
def searchDocuments (s : DocumentStoreState) (ptQuery : String) : DocumentStoreState :=
  let s1 := { s with searchQuery := ptQuery }
  if jsTrim ptQuery = "" then { s1 with searchResults := [] }
  else
    let tLowerQuery := jsToLower ptQuery
    let aResults :=
      (s1.documents.filter (fun doc =>
        jsIncludes (jsToLower doc.FTMdcTitle) tLowerQuery ||
        jsIncludes (jsToLower doc.FTMdcContent) tLowerQuery ||
        doc.FTMdcTags.any (fun tag => jsIncludes (jsToLower tag) tLowerQuery))).map
        (fun doc => mkSearchResult doc ptQuery)
    { s1 with searchResults := sortByKeyDesc SearchResult.matchCount aResults }

/-! ### The `MarkdownDocument` record (src/types, src/database `DatabaseService`)

This is the second persistence stack, used by `editorStore.ts`. The record
carries both the current fields (`id : string`, `title`, `content`, `tags`,
`createdAt`, `updatedAt`) and the Adasoft-style fields; the interface marks
the legacy trio optional, but every creation site in the store populates
all of them, so they are modelled as plain fields. -/

structure MarkdownDocument where
  id : String
  title : String
  content : String
  tags : List String
  createdAt : Nat
  updatedAt : Nat
  FDMdcModified : Nat
  FDMdcCreated : Nat
  FNMdcSize : Nat
  FTMdcTitle : String
  FTMdcContent : String
  FTMdcTags : List String
  FBMdcFavorite : Bool
deriving DecidableEq

/-- The argument of `DatabaseService.saveDocument`:
`Omit<MarkdownDocument, 'id' | 'createdAt' | 'updatedAt'>`. -/
structure MDDocData where
  title : String
  content : String
  tags : List String
  FDMdcModified : Nat
  FDMdcCreated : Nat
  FNMdcSize : Nat
  FTMdcTitle : String
  FTMdcContent : String
  FTMdcTags : List String
  FBMdcFavorite : Bool
deriving DecidableEq

/-- The error a rejected Dexie write produces (quota, corruption, ...). -/
inductive StorageError where
  | quotaExceeded
deriving DecidableEq

/-- Model of `DatabaseService.getAllDocuments`:
`db.documents.orderBy('updatedAt').reverse().toArray()`. -/
def dbGetAllDocuments (db : List MarkdownDocument) : List MarkdownDocument :=
  sortByKeyDesc MarkdownDocument.updatedAt db

/-- Model of `DatabaseService.getDocument`. -/
def dbGetDocument (db : List MarkdownDocument) (id : String) : Option MarkdownDocument :=
  db.find? (fun d => d.id == id)

/-- Model of `DatabaseService.saveDocument`: spreads the document data and assigns
`id := crypto.randomUUID()` (modelled by the `newId` parameter) and
`createdAt := updatedAt := now`; returns the table with the added record
and the record itself (the code returns the id and re-reads the record). -/
def dbSaveDocument (db : List MarkdownDocument) (dd : MDDocData) (newId : String)
    (now : Nat) : List MarkdownDocument × MarkdownDocument :=
  let newDoc : MarkdownDocument :=
    { id := newId
      title := dd.title
      content := dd.content
      tags := dd.tags
      createdAt := now
      updatedAt := now
      FDMdcModified := dd.FDMdcModified
      FDMdcCreated := dd.FDMdcCreated
      FNMdcSize := dd.FNMdcSize
      FTMdcTitle := dd.FTMdcTitle
      FTMdcContent := dd.FTMdcContent
      FTMdcTags := dd.FTMdcTags
      FBMdcFavorite := dd.FBMdcFavorite }
  (db ++ [newDoc], newDoc)

/-- The partial updates `editorStore` passes to `DatabaseService.updateDocument`:
`{ content }` from `autoSave` and `{ content, title }` from
`saveCurrentDocument`. No caller ever includes `FNMdcSize`. -/
structure MDUpdates where
  title : Option String := none
  content : Option String := none
deriving DecidableEq

/-- Model of the `DatabaseService.updateDocument` body applied to one record:
`db.documents.update(id, { ...updates, updatedAt: new Date() })`. -/
def applyMDUpdates (d : MarkdownDocument) (u : MDUpdates) (now : Nat) : MarkdownDocument :=
  { d with
    title := u.title.getD d.title
    content := u.content.getD d.content
    updatedAt := now }

/-- Model of `DatabaseService.updateDocument`: patches the record with the matching
primary key (Dexie `update` is a no-op when the key is absent). -/
def dbUpdateDocument (db : List MarkdownDocument) (id : String) (u : MDUpdates)
    (now : Nat) : List MarkdownDocument :=
  db.map (fun d => if d.id = id then applyMDUpdates d u now else d)

/-- The in-memory state of `useEditorStore` (src/stores/editorStore.ts)
together with the backing Dexie table `documents` (field `db`).
`settingsAutoSave` is `settings.autoSave`; the other settings fields play no
role in the claims. -/
structure EditorState where
  db : List MarkdownDocument
  currentDocument : Option MarkdownDocument
  content : String
  isAutoSaving : Bool
  lastSaved : Option Nat
  documents : List MarkdownDocument
  settingsAutoSave : Bool
deriving DecidableEq

/-- The default content used by `createNewDocument` when the draft is empty
(JS `content || '# New Document...'`). -/
def defaultNewContent : String := "# New Document\n\nStart writing here..."

/-- Model of `editorStore.createNewDocument` (default title): saves a new document
built from the current draft, makes it current, and reloads the list.
`writeFails = true` models the store write rejecting: the `catch` block only
logs, so the state is returned unchanged. -/
def createNewDocument (s : EditorState) (newId : String) (now : Nat)
    (writeFails : Bool) : EditorState :=
  let contentToSave := if s.content = "" then defaultNewContent else s.content
  if writeFails then s
  else
    let dd : MDDocData :=
      { title := "Untitled Document"
        content := contentToSave
        tags := []
        FDMdcModified := now
        FDMdcCreated := now
        FNMdcSize := jsLength contentToSave
        FTMdcTitle := "Untitled Document"
        FTMdcContent := contentToSave
        FTMdcTags := []
        FBMdcFavorite := false }
    let (db, newDoc) := dbSaveDocument s.db dd newId now
    { s with
      db := db
      currentDocument := some newDoc
      content := newDoc.content
      lastSaved := some now
      documents := dbGetAllDocuments db }

/-- Model of `editorStore.createDocument(docData)` (used by `Home` for the welcome
document): `DatabaseService.saveDocument`, re-read, set current, reload. -/
def edCreateDocument (s : EditorState) (docData : MDDocData) (newId : String)
    (now : Nat) : EditorState × String :=
  let (db, newDoc) := dbSaveDocument s.db docData newId now
  ({ s with
      db := db
      currentDocument := some newDoc
      content := newDoc.content
      lastSaved := some now
      documents := dbGetAllDocuments db },
   newDoc.id)

/-- Model of `editorStore.saveCurrentDocument`. With no current document it delegates
to `createNewDocument`. Otherwise it writes `{ content, title }` through
`DatabaseService.updateDocument`, re-reads the record, updates `lastSaved`
and reloads the list. The whole body is a `try`/`catch` whose handler only
calls `console.error`, so the returned `Option StorageError` — the error the
CALLER of the promise observes — is `none` on every path. -/
def saveCurrentDocument (s : EditorState) (newId : String) (now : Nat)
    (writeFails : Bool) : EditorState × Option StorageError :=
  match s.currentDocument with
  | none => (createNewDocument s newId now writeFails, none)
  | some doc =>
    if writeFails then (s, none)
    else
      let db := dbUpdateDocument s.db doc.id
        { content := some s.content, title := some doc.title } now
      let s1 := { s with db := db }
      let s2 := match dbGetDocument db doc.id with
        | some u => { s1 with currentDocument := some u, lastSaved := some now }
        | none => s1
      ({ s2 with documents := dbGetAllDocuments db }, none)

/-- The guard of `editorStore.autoSave`:
`if (!settings.autoSave || isAutoSaving || !currentDocument) return`. -/
def autoSavePerformsWrite (s : EditorState) : Bool :=
  s.settingsAutoSave && !s.isAutoSaving && s.currentDocument.isSome

/-- Model of `editorStore.autoSave`: under the guard, sets `isAutoSaving`, writes
`{ content }` through `DatabaseService.updateDocument` and updates
`lastSaved`; on failure the `catch` only clears `isAutoSaving`. Note that
unlike `saveCurrentDocument` it refreshes neither the current document nor
the list, and it never recomputes `FNMdcSize`. -/
def autoSave (s : EditorState) (now : Nat) (writeFails : Bool) : EditorState :=
  if autoSavePerformsWrite s then
    match s.currentDocument with
    | none => s
    | some doc =>
      if writeFails then { s with isAutoSaving := false }
      else
        { s with
          db := dbUpdateDocument s.db doc.id { content := some s.content } now
          lastSaved := some now
          isAutoSaving := false }
  else s

/-- Model of `editorStore.deleteDocument`: `DatabaseService.deleteDocument` (Dexie
`delete`, a no-op for an absent key), then clears the current document and
the draft content when the deleted id was current, then reloads the list. -/
def edDeleteDocument (s : EditorState) (id : String) : EditorState :=
  let s1 := { s with db := s.db.filter (fun d => d.id ≠ id) }
  let s2 :=
    if s1.currentDocument.map MarkdownDocument.id = some id then
      { s1 with currentDocument := none, content := "" }
    else s1
  { s2 with documents := dbGetAllDocuments s2.db }

/-- Model of `editorStore.setContent`: replaces the draft content synchronously, and
when auto-save is enabled schedules `autoSave` 1000 ms later via
`setTimeout` — WITHOUT storing or clearing any previous timeout handle (the
comment in the source says "Debounce auto-save", but nothing is cancelled).
`pending` is the queue of not-yet-fired timer fire-times. -/
def setContent (s : EditorState) (pending : List Nat) (c : String) (now : Nat) :
    EditorState × List Nat :=
  ({ s with content := c },
   if s.settingsAutoSave then pending ++ [now + 1000] else pending)

/-- Fires the pending `setTimeout(autoSave, 1000)` callbacks in order of
their scheduled times, assuming each awaited store write resolves before
the next timer callback runs (the single-threaded event loop processes the
short IndexedDB write between macrotasks). Returns the final state and the
number of auto-save invocations that passed the guard and performed a
repository write (a commit). -/
def runAutoSaveTimers (s : EditorState) : List Nat → EditorState × Nat
  | [] => (s, 0)
  | t :: ts =>
    let commits := if autoSavePerformsWrite s then 1 else 0
    let rest := runAutoSaveTimers (autoSave s t false) ts
    (rest.1, commits + rest.2)

/-! ### Definitions taken from the specification's wording

These restate spec sentences independently of the code, for refinement
comparisons. -/

/-- Spec 4.1 `search(query)`: "case-insensitive substring match against
Title, Content, and any Tag". -/
def specMatches (d : TMDDocument) (q : String) : Bool :=
  jsIncludes (jsToLower d.FTMdcTitle) (jsToLower q) ||
  jsIncludes (jsToLower d.FTMdcContent) (jsToLower q) ||
  d.FTMdcTags.any (fun tag => jsIncludes (jsToLower tag) (jsToLower q))

/-- Spec 4.1 `search(query)`: the "number of distinct matching lines" of a
document's content for a query — the count of content lines containing the
query case-insensitively. -/
def specMatchingLineCount (d : TMDDocument) (q : String) : Nat :=
  ((jsSplitLines d.FTMdcContent).filter
    (fun line => jsIncludes (jsToLower line) (jsToLower q))).length

/-! ### Concrete states used by counterexamples and witnesses -/

/-- A `MarkdownDocument` with the given id, content and modified time, whose
`FNMdcSize` is consistent with its content. -/
def mkMD (i c : String) (m : Nat) : MarkdownDocument :=
  { id := i
    title := "T"
    content := c
    tags := []
    createdAt := 0
    updatedAt := m
    FDMdcModified := m
    FDMdcCreated := 0
    FNMdcSize := jsLength c
    FTMdcTitle := "T"
    FTMdcContent := c
    FTMdcTags := []
    FBMdcFavorite := false }

/-- An editor state with one persisted document `d`, current and in sync,
auto-save enabled, and draft content `c`. -/
def mkEditorState (d : MarkdownDocument) (c : String) : EditorState :=
  { db := [d]
    currentDocument := some d
    content := c
    isAutoSaving := false
    lastSaved := none
    documents := dbGetAllDocuments [d]
    settingsAutoSave := true }

/-- C1 counterexample state: the stored document holds `"hello"` with
`FNMdcSize = 5`; the editor draft has grown to `"hello world!"`. -/
def edC1 : EditorState := mkEditorState (mkMD "doc1" "hello" 1) "hello world!"

/-- C1 witness state for the `documentStore` stack: one stored record whose
size is consistent. -/
def sC1w : DocumentStoreState :=
  { db := [{ FNMdcId := 1, FTMdcTitle := "t", FTMdcContent := "old", FDMdcCreated := 0,
             FDMdcModified := 0, FTMdcTags := [], FNMdcSize := 3, FBMdcFavorite := false }]
    documents := []
    currentDocument := none
    isLoading := false
    searchQuery := ""
    searchResults := [] }

/-- C1 witness update: a content-only `Partial<TMDDocument>`. -/
def uC1 : TMDUpdates := { FTMdcContent := some "new content!" }

/-- C2 state: current document loaded, auto-save enabled, not saving. -/
def edC2 : EditorState := mkEditorState (mkMD "doc2" "x" 1) "x"

/-- C2: first `setContent` call at t = 0 ms (no pending timers). -/
def c2AfterFirst : EditorState × List Nat := setContent edC2 [] "a" 0

/-- C2: second `setContent` call at t = 500 ms, within the 1000 ms quiet
period of the first. -/
def c2AfterSecond : EditorState × List Nat :=
  setContent c2AfterFirst.1 c2AfterFirst.2 "ab" 500

/-- C3 counterexample state: a current document whose store write will fail. -/
def edC3 : EditorState := mkEditorState (mkMD "doc3" "saved" 1) "draft edits"

/-- C6: an empty editor state, as on first run. -/
def edC6 : EditorState :=
  { db := []
    currentDocument := none
    content := ""
    isAutoSaving := false
    lastSaved := none
    documents := []
    settingsAutoSave := true }

/-- The welcome document's content (abridged; the `Home` initializer passes a
long markdown body — only its non-emptiness matters here). -/
def welcomeContent : String :=
  "# Welcome to Markdown Editor\n\nThis is a powerful markdown editor with real-time preview capabilities."

/-- The document data `Home`'s first-run initializer passes to
`createDocument`: note `FNMdcSize: 0` next to a non-empty content
(src, `Home` `useEffect` initialize). -/
def welcomeDocData : MDDocData :=
  { title := "Welcome to MitIT Markdown Editor"
    content := welcomeContent
    tags := ["welcome"]
    FDMdcModified := 0
    FDMdcCreated := 0
    FNMdcSize := 0
    FTMdcTitle := "Welcome to MitIT Markdown Editor"
    FTMdcContent := welcomeContent
    FTMdcTags := ["welcome"]
    FBMdcFavorite := false }

/-- C7 document: matches the query `" "` in its content. -/
def docC7 : TMDDocument :=
  { FNMdcId := 1, FTMdcTitle := "t", FTMdcContent := "a b", FDMdcCreated := 0,
    FDMdcModified := 0, FTMdcTags := [], FNMdcSize := 3, FBMdcFavorite := false }

/-- C7 counterexample state. -/
def sC7 : DocumentStoreState :=
  { db := [docC7], documents := [docC7], currentDocument := none,
    isLoading := false, searchQuery := "", searchResults := [] }

/-- C7 witness document: content `"# Hello"`. -/
def docC7w : TMDDocument :=
  { FNMdcId := 4, FTMdcTitle := "Greeting", FTMdcContent := "# Hello", FDMdcCreated := 0,
    FDMdcModified := 2, FTMdcTags := ["demo"], FNMdcSize := 7, FBMdcFavorite := false }

/-- C7 witness state. -/
def sC7w : DocumentStoreState :=
  { db := [docC7w], documents := [docC7w], currentDocument := none,
    isLoading := false, searchQuery := "", searchResults := [] }

/-- C9 witness: the current document. -/
def dC9a : MarkdownDocument := mkMD "a" "current doc" 5

/-- C9 witness: the other document, to be deleted. -/
def dC9b : MarkdownDocument := mkMD "b" "other doc" 3

/-- C9 witness state: two documents, `"a"` current, list in sync with db. -/
def sC9 : EditorState :=
  { db := [dC9a, dC9b]
    currentDocument := some dC9a
    content := "current draft"
    isAutoSaving := false
    lastSaved := none
    documents := dbGetAllDocuments [dC9a, dC9b]
    settingsAutoSave := true }

/-- C10 witness state. -/
def sC10 : DocumentStoreState :=
  { db := [docC7], documents := [docC7], currentDocument := none,
    isLoading := false, searchQuery := "", searchResults := [] }

/-! ## Helper lemmas -/

theorem sortByKeyDesc_sorted (key : α → Nat) (l : List α) :
    (sortByKeyDesc key l).Pairwise (fun a b => key b ≤ key a) :=
  List.sorted_insertionSort (keyGE key) l

theorem sortByKeyDesc_perm (key : α → Nat) (l : List α) :
    (sortByKeyDesc key l).Perm l :=
  List.perm_insertionSort (keyGE key) l

theorem orderedInsert_eq_cons {r : α → α → Prop} [DecidableRel r] {x : α} {l : List α}
    (h : ∀ y ∈ l, r x y) : List.orderedInsert r x l = x :: l := by
  cases l with
  | nil => rfl
  | cons c rest => simp [List.orderedInsert, h c (List.mem_cons_self c rest)]

theorem filter_orderedInsert_pos {r : α → α → Prop} [DecidableRel r] [IsTrans α r]
    (p : α → Bool) (x : α) (hx : p x = true) :
    ∀ l : List α, l.Sorted r →
      (List.orderedInsert r x l).filter p = List.orderedInsert r x (l.filter p)
  | [], _ => by simp [hx]
  | b :: t, hs => by
    have hrel : ∀ y ∈ t, r b y := List.rel_of_sorted_cons hs
    by_cases hrb : r x b
    · cases hpb : p b with
      | true => simp [List.orderedInsert, hrb, List.filter_cons, hx, hpb]
      | false =>
        have hins : List.orderedInsert r x (t.filter p) = x :: t.filter p :=
          orderedInsert_eq_cons
            (fun y hy => Trans.trans hrb (hrel y (List.mem_of_mem_filter hy)))
        simp [List.orderedInsert, hrb, List.filter_cons, hx, hpb, hins]
    · have ih := filter_orderedInsert_pos p x hx t hs.of_cons
      cases hpb : p b with
      | true => simp [List.orderedInsert, hrb, List.filter_cons, hpb, ih]
      | false => simp [List.orderedInsert, hrb, List.filter_cons, hpb, ih]

theorem filter_orderedInsert_neg {r : α → α → Prop} [DecidableRel r]
    (p : α → Bool) (x : α) (hx : p x = false) :
    ∀ l : List α, (List.orderedInsert r x l).filter p = l.filter p
  | [] => by simp [hx]
  | b :: t => by
    by_cases hrb : r x b
    · simp [List.orderedInsert, hrb, List.filter_cons, hx]
    · cases hpb : p b <;>
        simp [List.orderedInsert, hrb, List.filter_cons, hpb,
          filter_orderedInsert_neg p x hx t]

theorem filter_insertionSort {r : α → α → Prop} [DecidableRel r] [IsTotal α r] [IsTrans α r]
    (p : α → Bool) : ∀ l : List α,
      (List.insertionSort r l).filter p = List.insertionSort r (l.filter p)
  | [] => rfl
  | a :: t => by
    cases hpa : p a with
    | true =>
      simp only [List.insertionSort, List.filter_cons, hpa, if_true]
      rw [filter_orderedInsert_pos p a hpa _ (List.sorted_insertionSort r _),
        filter_insertionSort p t]
    | false =>
      simp only [List.insertionSort, List.filter_cons, hpa, Bool.false_eq_true, if_false]
      rw [filter_orderedInsert_neg p a hpa, filter_insertionSort p t]

/-- Lemma: `sortByKeyDesc` commutes with `filter`: deleting entries from the store
and re-sorting gives the same list as filtering the already-sorted list. -/
theorem sortByKeyDesc_filter (key : α → Nat) (p : α → Bool) (l : List α) :
    (sortByKeyDesc key l).filter p = sortByKeyDesc key (l.filter p) :=
  filter_insertionSort p l

theorem filter_self_filter (p : α → Bool) (l : List α) :
    (l.filter p).filter p = l.filter p := by
  induction l with
  | nil => rfl
  | cons a t ih => cases hpa : p a <;> simp [List.filter_cons, hpa, ih]

theorem length_filter_enumFrom (f : α → Bool) :
    ∀ (n : Nat) (l : List α),
      ((List.enumFrom n l).filter (fun q => f q.2)).length = (l.filter f).length
  | _, [] => rfl
  | n, a :: t => by
    cases hfa : f a <;>
      simp [List.enumFrom, List.filter_cons, hfa, length_filter_enumFrom f (n + 1) t]

/-- The number of context fragments `FSaMDKSearchInContent` returns is the
number of content lines containing the query case-insensitively. -/
theorem FSaMDKSearchInContent_length (c q : String) (hq : jsTrim q ≠ "") :
    (FSaMDKSearchInContent c q).length =
      ((jsSplitLines c).filter
        (fun line => jsIncludes (jsToLower line) (jsToLower q))).length := by
  unfold FSaMDKSearchInContent
  rw [if_neg hq]
  simp only [List.length_map, List.enum]
  exact length_filter_enumFrom
    (fun line => jsIncludes (jsToLower line) (jsToLower q)) 0 (jsSplitLines c)

/-! ## Claims -/

/-- C1 (counterexample to the claim as stated): a committed auto-save update
that changes the content does NOT recompute the stored `FNMdcSize`.
Starting from a consistent stored document (content `"hello"`, size 5) with
draft `"hello world!"`, a successful `autoSave` leaves the store holding a
document whose size (5) differs from its content's length (12). -/
theorem c1_counterexample_autoSave_stale_size :
    (autoSave edC1 10 false).db.all
      (fun d => d.FNMdcSize == jsLength d.content) = false ∧
    (autoSave edC1 10 false).db.map
      (fun d => (d.FNMdcSize, jsLength d.content)) = [(5, 12)] := by decide

/-- C1 (amended): the Size-equals-content-length invariant holds at rest for
every update committed through `documentStore.updateDocument` (which
recomputes `FNMdcSize` whenever `FTMdcContent` is among the updated fields,
and whose callers never pass `FNMdcSize` themselves); updates committed
through `DatabaseService.updateDocument` (the `editorStore` auto-save path)
do not maintain it. -/
theorem c1_documentStore_update_keeps_size (s : DocumentStoreState) (pnId : Nat)
    (u : TMDUpdates) (now : Nat) (hu : u.FNMdcSize = none)
    (hinv : s.db.all (fun d => d.FNMdcSize == jsLength d.FTMdcContent) = true) :
    (dsUpdateDocument s pnId u now).db.all
      (fun d => d.FNMdcSize == jsLength d.FTMdcContent) = true := by
  rw [List.all_eq_true] at hinv ⊢
  intro d hd
  simp only [dsUpdateDocument] at hd
  obtain ⟨d0, hd0, rfl⟩ := List.mem_map.1 hd
  by_cases hid : d0.FNMdcId = pnId
  · cases hc : u.FTMdcContent with
    | some c => simp [hc, hid, applyTMDUpdates]
    | none => simpa [hc, hid, applyTMDUpdates, hu] using hinv d0 hd0
  · simpa [hid] using hinv d0 hd0

/-- C1 witness: the amended theorem at a concrete content-only update. -/
theorem c1_witness :
    (dsUpdateDocument sC1w 1 uC1 9).db.all
      (fun d => d.FNMdcSize == jsLength d.FTMdcContent) = true :=
  c1_documentStore_update_keeps_size sC1w 1 uC1 9 rfl (by decide)

/-- C2 (evaluation at the failing input): two `setContent` calls at t = 0 ms
and t = 500 ms — within the 1000 ms quiet period — leave TWO pending
auto-save delays (nothing was cancelled, despite the "Debounce auto-save"
comment in the source), firing at t = 1000 ms and t = 1500 ms; with each
awaited store write resolving before the next timer, both invocations pass
the `autoSave` guard and perform a repository write, so two commits occur
rather than at most one. -/
theorem c2_two_rapid_calls_two_commits :
    c2AfterSecond.2 = [1000, 1500] ∧
    (runAutoSaveTimers c2AfterSecond.1 c2AfterSecond.2).2 = 2 := by decide

/-- C3 (counterexample to the claim as stated): with a current document
present and the underlying repository write failing, `saveCurrentDocument`
resolves normally — the `catch` block only logs to the console — so the
caller receives no error (`none`) and no error indication is recorded
anywhere in the editor state, which is returned unchanged. -/
theorem c3_counterexample_failure_swallowed :
    edC3.currentDocument.isSome = true ∧
    saveCurrentDocument edC3 "n1" 7 true = (edC3, none) := by decide

/-- C3 (amended): a repository failure during `saveCurrentDocument` is
caught inside the store and only logged; the promise resolves normally (the
caller observes no error) and the editor state — including the draft — is
left unchanged. No user-visible error is surfaced. -/
theorem c3_failure_not_surfaced (s : EditorState) (newId : String) (now : Nat) :
    (saveCurrentDocument s newId now true).2 = none ∧
    (saveCurrentDocument s newId now true).1 = s := by
  cases h : s.currentDocument with
  | none => simp [saveCurrentDocument, h, createNewDocument]
  | some doc => simp [saveCurrentDocument, h]

/-- C4: when the underlying store write of a commit fails — whether through
`saveCurrentDocument` (including its create-new-document branch) or through
`autoSave` — the draft content of the editor state is unchanged: not
reverted to the persisted content and not cleared. -/
theorem c4_draft_preserved_on_failed_commit (s : EditorState) (newId : String)
    (now : Nat) :
    (saveCurrentDocument s newId now true).1.content = s.content ∧
    (autoSave s now true).content = s.content := by
  constructor
  · cases h : s.currentDocument with
    | none => simp [saveCurrentDocument, h, createNewDocument]
    | some doc => simp [saveCurrentDocument, h]
  · unfold autoSave
    by_cases hg : autoSavePerformsWrite s = true
    · cases h : s.currentDocument <;> simp [hg, h]
    · simp [hg]

/-- C5: both list-all-documents operations return the documents ordered by
their modified timestamp descending (`FDMdcModified` for
`mMarkdownDB.FSaMDCGetAllDocuments`, `updatedAt` for
`DatabaseService.getAllDocuments`): whenever document A appears before
document B in the result, A's modified timestamp is at least B's. -/
theorem c5_list_ordered_by_modified_desc (db : List TMDDocument)
    (db2 : List MarkdownDocument) :
    (FSaMDCGetAllDocuments db).Pairwise
      (fun a b => b.FDMdcModified ≤ a.FDMdcModified) ∧
    (dbGetAllDocuments db2).Pairwise (fun a b => b.updatedAt ≤ a.updatedAt) :=
  ⟨sortByKeyDesc_sorted TMDDocument.FDMdcModified db,
   sortByKeyDesc_sorted MarkdownDocument.updatedAt db2⟩

/-- C6 (counterexample to the claim as stated): the first-run welcome
document is created through `editorStore.createDocument` with the literal
`FNMdcSize: 0` while its content is non-empty; `DatabaseService.saveDocument`
persists the caller-supplied fields verbatim, so immediately after this
create the stored size (0) differs from the content's length. -/
theorem c6_counterexample_welcome_size_zero :
    ((edCreateDocument edC6 welcomeDocData "w1" 5).1.currentDocument.map
      MarkdownDocument.FNMdcSize) = some 0 ∧
    ((edCreateDocument edC6 welcomeDocData "w1" 5).1.currentDocument.map
      (fun d => d.FNMdcSize == jsLength d.FTMdcContent)) = some false ∧
    ((edCreateDocument edC6 welcomeDocData "w1" 5).1.currentDocument.map
      (fun d => d.FTMdcContent == "")) = some false := by decide

/-- C6 (amended): after a create through `documentStore.createDocument` the
new document satisfies `Modified = Created` and `Size = length(Content)`;
and every document created through `DatabaseService.saveDocument` gets equal
`createdAt` and `updatedAt` store timestamps. The size part fails only for
creates whose caller passes an inconsistent size (the `Home` welcome
document passes `FNMdcSize: 0`), since `saveDocument` stores the supplied
fields verbatim. -/
theorem c6_create_timestamps_and_size (s : DocumentStoreState) (t c : String)
    (nid now : Nat) (db : List MarkdownDocument) (dd : MDDocData) (sid : String)
    (n2 : Nat) :
    ((dsCreateDocument s t c nid now).currentDocument.map TMDDocument.FDMdcModified =
      (dsCreateDocument s t c nid now).currentDocument.map TMDDocument.FDMdcCreated) ∧
    ((dsCreateDocument s t c nid now).currentDocument.map TMDDocument.FNMdcSize =
      (dsCreateDocument s t c nid now).currentDocument.map
        (fun d => jsLength d.FTMdcContent)) ∧
    ((dbSaveDocument db dd sid n2).2.createdAt = (dbSaveDocument db dd sid n2).2.updatedAt) :=
  ⟨rfl, rfl, rfl⟩

/-- C7 (counterexample to the claim as stated): the query `" "` is a
non-empty string and is contained in the document content `"a b"`, so by the
claim the document should be returned; but `searchDocuments` returns early
with no results whenever the TRIMMED query is empty. -/
theorem c7_counterexample_whitespace_query :
    (" " : String) ≠ "" ∧ specMatches docC7 " " = true ∧
    (searchDocuments sC7 " ").searchResults = [] := by decide

/-- C7 (amended): for every query whose trim is non-empty, `searchDocuments`
returns exactly the documents whose title, content or some tag contains the
query as a case-insensitive substring (first conjunct: the returned ids are
a permutation of the matching documents' ids), ordered by the number of
matching content lines descending (second conjunct), and each result's
`matchCount` is precisely its document's number of matching content lines
(third conjunct). Queries that are non-empty but all-whitespace return no
results. -/
theorem c7_search_matches_and_ranking (s : DocumentStoreState) (q : String)
    (hq : jsTrim q ≠ "") :
    ((searchDocuments s q).searchResults.map SearchResult.documentId).Perm
      ((s.documents.filter (fun d => specMatches d q)).map TMDDocument.FNMdcId) ∧
    (searchDocuments s q).searchResults.Pairwise
      (fun a b => b.matchCount ≤ a.matchCount) ∧
    (searchDocuments s q).searchResults.all (fun r =>
      s.documents.any (fun d =>
        specMatches d q && r.documentId == d.FNMdcId &&
        r.matchCount == specMatchingLineCount d q)) = true := by
  have hres : (searchDocuments s q).searchResults =
      sortByKeyDesc SearchResult.matchCount
        ((s.documents.filter (fun d => specMatches d q)).map
          (fun d => mkSearchResult d q)) := by
    simp only [searchDocuments]
    rw [if_neg hq]
    rfl
  refine ⟨?_, ?_, ?_⟩
  · rw [hres]
    have h1 := (sortByKeyDesc_perm SearchResult.matchCount
      ((s.documents.filter (fun d => specMatches d q)).map
        (fun d => mkSearchResult d q))).map SearchResult.documentId
    rw [List.map_map] at h1
    exact h1
  · rw [hres]
    exact sortByKeyDesc_sorted SearchResult.matchCount _
  · rw [List.all_eq_true]
    intro r hr
    rw [hres] at hr
    have hr2 : r ∈ (s.documents.filter (fun d => specMatches d q)).map
        (fun d => mkSearchResult d q) :=
      (sortByKeyDesc_perm SearchResult.matchCount _).mem_iff.mp hr
    obtain ⟨d, hdfil, rfl⟩ := List.mem_map.1 hr2
    obtain ⟨hdmem, hdp⟩ := List.mem_filter.1 hdfil
    rw [List.any_eq_true]
    refine ⟨d, hdmem, ?_⟩
    have hmc : (mkSearchResult d q).matchCount = specMatchingLineCount d q := by
      simp only [mkSearchResult, specMatchingLineCount]
      exact FSaMDKSearchInContent_length d.FTMdcContent q hq
    simp only [Bool.and_eq_true, beq_iff_eq]
    exact ⟨⟨hdp, rfl⟩, hmc⟩

/-- C7 witness: the amended theorem at a one-document state whose content is
`"# Hello"` and the query `"hello"`. -/
theorem c7_witness :
    ((searchDocuments sC7w "hello").searchResults.map SearchResult.documentId).Perm
      ((sC7w.documents.filter (fun d => specMatches d "hello")).map
        TMDDocument.FNMdcId) ∧
    (searchDocuments sC7w "hello").searchResults.Pairwise
      (fun a b => b.matchCount ≤ a.matchCount) ∧
    (searchDocuments sC7w "hello").searchResults.all (fun r =>
      sC7w.documents.any (fun d =>
        specMatches d "hello" && r.documentId == d.FNMdcId &&
        r.matchCount == specMatchingLineCount d "hello")) = true :=
  c7_search_matches_and_ranking sC7w "hello" (by decide)

/-- C8: deleting the same id twice — through `documentStore.deleteDocument`
or through `editorStore.deleteDocument` — produces exactly the same
observable state (stored table, in-memory list, current document, draft
content) as deleting it once; both operations are total, so the second call
(and a call with an absent id) raises no error. -/
theorem c8_delete_idempotent (s : DocumentStoreState) (pnId : Nat)
    (t : EditorState) (id : String) :
    dsDeleteDocument (dsDeleteDocument s pnId) pnId = dsDeleteDocument s pnId ∧
    edDeleteDocument (edDeleteDocument t id) id = edDeleteDocument t id := by
  constructor
  · unfold dsDeleteDocument
    by_cases hc : s.currentDocument.map TMDDocument.FNMdcId = some pnId <;>
      simp [hc, filter_self_filter]
  · unfold edDeleteDocument
    by_cases hc : t.currentDocument.map MarkdownDocument.id = some id <;>
      simp [hc, filter_self_filter]

/-- C9: deleting a document other than the current one leaves the current
document reference and the draft content unchanged; the stored table and
the (in-sync) in-memory list merely lose the deleted entry. -/
theorem c9_delete_other_preserves_editor (s : EditorState) (x : String)
    (d : MarkdownDocument) (hcur : s.currentDocument = some d) (hne : d.id ≠ x)
    (hsync : s.documents = dbGetAllDocuments s.db) :
    (edDeleteDocument s x).currentDocument = s.currentDocument ∧
    (edDeleteDocument s x).content = s.content ∧
    (edDeleteDocument s x).db = s.db.filter (fun d2 => d2.id ≠ x) ∧
    (edDeleteDocument s x).documents = s.documents.filter (fun d2 => d2.id ≠ x) := by
  have hcond : (({ s with db := s.db.filter (fun d2 => d2.id ≠ x) }
      : EditorState).currentDocument.map MarkdownDocument.id = some x) = False := by
    simp [hcur, hne]
  simp only [edDeleteDocument, hcond, if_false]
  refine ⟨trivial, trivial, trivial, ?_⟩
  rw [hsync]
  simp only [dbGetAllDocuments]
  rw [sortByKeyDesc_filter]

/-- C9 witness: the theorem at a two-document state, deleting the
non-current document `"b"`. -/
theorem c9_witness :
    (edDeleteDocument sC9 "b").currentDocument = sC9.currentDocument ∧
    (edDeleteDocument sC9 "b").content = sC9.content ∧
    (edDeleteDocument sC9 "b").db = sC9.db.filter (fun d2 => d2.id ≠ "b") ∧
    (edDeleteDocument sC9 "b").documents = sC9.documents.filter (fun d2 => d2.id ≠ "b") :=
  c9_delete_other_preserves_editor sC9 "b" dC9a rfl (by decide) rfl

/-- C10: for every query that trims to the empty string (empty or
whitespace-only), `searchDocuments` sets the results to the empty list —
matching no document regardless of the documents' contents — and
`FSaMDKSearchInContent` likewise returns no fragments for any content. -/
theorem c10_blank_query_no_results (s : DocumentStoreState) (q c : String)
    (hq : jsTrim q = "") :
    (searchDocuments s q).searchResults = [] ∧
    FSaMDKSearchInContent c q = [] := by
  constructor
  · simp [searchDocuments, hq]
  · simp [FSaMDKSearchInContent, hq]

/-- C10 witness: the theorem at the whitespace query `"  "` over a state
whose single document would match any substring of `"a b"`. -/
theorem c10_witness :
    (searchDocuments sC10 "  ").searchResults = [] ∧
    FSaMDKSearchInContent "a b" "  " = [] :=
  c10_blank_query_no_results sC10 "  " "a b" (by decide)

end MitIT
